import Mathlib

/-!
Verification of the pricing engine and testimonial fallback of the
"Boosting Service API" backend (src/main.py, src/schemas.py).

Modelling conventions:
* Python decimal arithmetic on the price values is modelled over `ℚ`
  (all rates, the priority multiplier and the streaming fee are exact
  binary fractions, and quantities are integers, so every intermediate
  value the code computes is an exact rational, faithfully represented
  by the binary64 floats Python uses on this domain).
* Python's `round(x, 2)` rounds to 2 decimal digits with ties going to
  the even last digit (banker's rounding); `round2` below implements
  exactly that on `ℚ`.
* Python's `str.lower()` is modelled on the ASCII range, which covers
  every service key in the rate table.
-/

namespace Boosting

/-- Round a rational to the nearest integer, ties to even
(the rounding mode of Python's built-in `round`). -/
def rhe (x : ℚ) : ℤ :=
  if x - ⌊x⌋ < 1/2 then ⌊x⌋
  else if 1/2 < x - ⌊x⌋ then ⌊x⌋ + 1
  else if ⌊x⌋ % 2 = 0 then ⌊x⌋ else ⌊x⌋ + 1

/-- Python's `round(x, 2)`: round to 2 fractional decimal digits. -/
def round2 (x : ℚ) : ℚ := rhe (x * 100) / 100

/-- ASCII lower-casing of one character, as Python's `str.lower` acts on
the ASCII range (every key of the rate table is ASCII). -/
def lowerChar (c : Char) : Char :=
  if 65 ≤ c.toNat ∧ c.toNat ≤ 90 then Char.ofNat (c.toNat + 32) else c

/-- ASCII version of `s.lower()`. -/
def lowerStr (s : String) : String := ⟨s.data.map lowerChar⟩

/-- Model of `PriceRequest` in src/main.py (service, quantity=1,
priority=False, streaming=False). -/
structure PriceRequest where
  service : String
  quantity : ℤ
  priority : Bool
  streaming : Bool
deriving DecidableEq

/-- Model of `PriceResponse` in src/main.py. -/
structure PriceResponse where
  base_price : ℚ
  addons : ℚ
  total : ℚ
deriving DecidableEq

/-- Model of the `HTTPException` raised by the endpoint: status code and detail. -/
structure HTTPError where
  status_code : ℕ
  detail : String
deriving DecidableEq

/-- The `PRICES` table of src/main.py. -/
def PRICES : List (String × ℚ) :=
  [("exploration", 5),
   ("spiral_abyss", 12),
   ("leveling", 7/2),
   ("farming", 8),
   ("boss_runs", 6)]

/-- The constant `PRIORITY_MULT = 1.25`. -/
def PRIORITY_MULT : ℚ := 5/4

/-- The constant `STREAMING_FEE = 3.0`. -/
def STREAMING_FEE : ℚ := 3

/-- The effective quantity `max(1, req.quantity)` of line 94. -/
def effQuantity (q : ℤ) : ℤ := max 1 q

/-- The value of `base_price` after lines 94–97: `base_unit * max(1, quantity)`,
multiplied by `PRIORITY_MULT` when `priority` is set. -/
def rawBase (base_unit : ℚ) (quantity : ℤ) (priority : Bool) : ℚ :=
  if priority then base_unit * (effQuantity quantity : ℤ) * PRIORITY_MULT
  else base_unit * (effQuantity quantity : ℤ)

/-- The value of `addons` after lines 95–99: starts at `0.0`, gains `STREAMING_FEE`
when `streaming` is set. -/
def rawAddons (streaming : Bool) : ℚ :=
  if streaming then 0 + STREAMING_FEE else 0

/-- The function `calculate_price` of src/main.py lines 88–101: look the lower-cased
service up in `PRICES` (HTTP 400 "Unknown service" when absent), apply
the quantity floor, priority multiplier and streaming fee, and return
the three independently rounded fields. -/
def calculate_price (req : PriceRequest) : Except HTTPError PriceResponse :=
  match PRICES.lookup (lowerStr req.service) with
  | none => .error ⟨400, "Unknown service"⟩
  | some base_unit =>
    .ok ⟨round2 (rawBase base_unit req.quantity req.priority),
         round2 (rawAddons req.streaming),
         round2 (rawBase base_unit req.quantity req.priority + rawAddons req.streaming)⟩

/-- Model of `Testimonial` in src/schemas.py: name, optional game, star
rating, comment, optional highlights. -/
structure Testimonial where
  name : String
  game : Option String
  rating : ℤ
  comment : String
  highlights : Option (List String)
deriving DecidableEq

/-- The three seed testimonials of src/main.py lines 123–127, in their
source order. -/
def seedTestimonials : List Testimonial :=
  [⟨"Alex R.", some "Genshin Impact", 5,
    "Fast, safe, and super friendly. Cleared Abyss 36★ in one evening!", none⟩,
   ⟨"Mina K.", some "HSR", 5,
    "Efficient farming package. Account felt so much stronger next day.", none⟩,
   ⟨"Neo", some "Multiple", 5,
    "Professional team. Great communication and fair pricing.", none⟩]

/-- Python list slicing `xs[:stop]` for an integer `stop`: a
non-negative `stop` keeps the first `stop` elements, a negative one
drops `-stop` elements from the end (clamped at the empty list). -/
def pySliceTo (xs : List α) (stop : ℤ) : List α :=
  if 0 ≤ stop then xs.take stop.toNat else xs.take (xs.length - (-stop).toNat)

/-- The function `list_testimonials` of src/main.py lines 111–128. The document
store's `get_documents` call and the per-document normalization are the
`try` block: their combined outcome enters as `queryResult` (an
`Except` standing for the Python exception flow; the store applies the
limit itself on success). On success the normalized documents are
returned; on any failure the seed list truncated to `limit` is
returned instead, and no error escapes. -/
def list_testimonials (queryResult : Except String (List Testimonial))
    (limit : ℤ) : List Testimonial :=
  match queryResult with
  | .ok docs => docs
  | .error _ => pySliceTo seedTestimonials limit

/-! Basic facts about the rounding function. -/

/-- Round-half-even is the identity on integers. -/
theorem rhe_intCast (n : ℤ) : rhe (n : ℚ) = n := by
  simp [rhe]

/-- Adding an even integer commutes with round-half-even. -/
theorem rhe_add_even_int (x : ℚ) (n : ℤ) (hn : n % 2 = 0) :
    rhe (x + n) = rhe x + n := by
  unfold rhe
  rw [Int.floor_add_int]
  push_cast
  have h1 : x + n - (⌊x⌋ + n) = x - ⌊x⌋ := by ring
  have h2 : (⌊x⌋ + n) % 2 = ⌊x⌋ % 2 := by omega
  rw [h1, h2]
  split
  · omega
  · split
    · omega
    · split <;> omega

/-- Round-half-even never goes below the floor. -/
theorem floor_le_rhe (x : ℚ) : ⌊x⌋ ≤ rhe x := by
  unfold rhe
  split <;> [omega; split] <;> [omega; split] <;> omega

/-- Rounding to hundredths is the identity on exact hundredths. -/
theorem round2_eq_self (x : ℚ) (n : ℤ) (h : x * 100 = (n : ℚ)) :
    round2 x = x := by
  have hx : x = (n : ℚ) / 100 := by
    field_simp at h ⊢
    linarith
  rw [round2, h, rhe_intCast, hx]

theorem round2_zero : round2 0 = 0 := round2_eq_self 0 0 (by norm_num)

theorem round2_three : round2 3 = 3 := round2_eq_self 3 300 (by norm_num)

/-- Adding the flat streaming fee shifts `round2` by exactly 3. -/
theorem round2_add_three (x : ℚ) : round2 (x + 3) = round2 x + 3 := by
  have h : (x + 3) * 100 = x * 100 + ((300 : ℤ) : ℚ) := by push_cast; ring
  rw [round2, h, rhe_add_even_int (x * 100) 300 (by norm_num)]
  rw [round2]
  push_cast
  ring

/-- Values at least 1 round to at least 1. -/
theorem one_le_round2 (x : ℚ) (h : 1 ≤ x) : 1 ≤ round2 x := by
  have hf : (100 : ℤ) ≤ ⌊x * 100⌋ := by
    rw [Int.le_floor]
    push_cast
    linarith
  have hr : (100 : ℤ) ≤ rhe (x * 100) := le_trans hf (floor_le_rhe _)
  rw [round2]
  rw [le_div_iff₀ (by norm_num : (0:ℚ) < 100)]
  calc (1 : ℚ) * 100 = ((100 : ℤ) : ℚ) := by norm_num
  _ ≤ (rhe (x * 100) : ℚ) := by exact_mod_cast hr

/-! Facts about the rate table and service-key normalization. -/

/-- A successful lookup comes from one of the five table rows. -/
theorem lookup_cases (k : String) (r : ℚ) (h : PRICES.lookup k = some r) :
    (k = "exploration" ∧ r = 5) ∨ (k = "spiral_abyss" ∧ r = 12) ∨
    (k = "leveling" ∧ r = 7/2) ∨ (k = "farming" ∧ r = 8) ∨
    (k = "boss_runs" ∧ r = 6) := by
  simp only [PRICES, List.lookup] at h
  repeat' split at h
  all_goals simp_all

/-- Every key of the rate table is already lower-case. -/
theorem lowerStr_fixed (k : String) (r : ℚ) (h : PRICES.lookup k = some r) :
    lowerStr k = k := by
  rcases lookup_cases k r h with ⟨hk, _⟩ | ⟨hk, _⟩ | ⟨hk, _⟩ | ⟨hk, _⟩ | ⟨hk, _⟩ <;>
    subst hk <;> decide

/-- Unfolding `calculate_price` on a known service key. -/
theorem calculate_price_known (s : String) (r : ℚ)
    (h : PRICES.lookup (lowerStr s) = some r) (q : ℤ) (pr st : Bool) :
    calculate_price ⟨s, q, pr, st⟩ =
      .ok ⟨round2 (rawBase r q pr), round2 (rawAddons st),
           round2 (rawBase r q pr + rawAddons st)⟩ := by
  unfold calculate_price
  rw [h]

theorem effQuantity_of_one_le (q : ℤ) (h : 1 ≤ q) : effQuantity q = q :=
  max_eq_right h

theorem effQuantity_of_le_one (q : ℤ) (h : q ≤ 1) : effQuantity q = 1 :=
  max_eq_left h

theorem char_toNat_ofNat (n : ℕ) (h : n.isValidChar) : (Char.ofNat n).toNat = n := by
  rw [Char.ofNat, dif_pos h]
  rfl

/-- Lower-casing a character twice is the same as doing it once. -/
theorem lowerChar_idem (c : Char) : lowerChar (lowerChar c) = lowerChar c := by
  unfold lowerChar
  by_cases h : 65 ≤ c.toNat ∧ c.toNat ≤ 90
  · rw [if_pos h]
    have hval : (Char.ofNat (c.toNat + 32)).toNat = c.toNat + 32 :=
      char_toNat_ofNat _ (Or.inl (by omega))
    rw [hval, if_neg (by omega)]
  · rw [if_neg h, if_neg h]

/-- Lower-casing a string is idempotent. -/
theorem lowerStr_idem (s : String) : lowerStr (lowerStr s) = lowerStr s := by
  unfold lowerStr
  rw [List.map_map]
  exact congrArg String.mk (List.map_congr_left fun c _ => lowerChar_idem c)

/-- Rounding fixes `r * m` whenever `r` is an exact hundredth. -/
theorem round2_int_mul (r : ℚ) (n : ℤ) (hr : r * 100 = (n : ℚ)) (m : ℤ) :
    round2 (r * m) = r * m := by
  apply round2_eq_self _ (n * m)
  push_cast
  calc r * m * 100 = r * 100 * m := by ring
  _ = (n : ℚ) * m := by rw [hr]

/-- Every rate of the table is an exact hundredth, so the unrounded
base price of a non-priority request survives `round2` unchanged. -/
theorem round2_rate_mul (k : String) (r : ℚ) (h : PRICES.lookup k = some r)
    (m : ℤ) : round2 (r * m) = r * m := by
  rcases lookup_cases k r h with ⟨_, hr⟩ | ⟨_, hr⟩ | ⟨_, hr⟩ | ⟨_, hr⟩ | ⟨_, hr⟩ <;>
    subst hr
  · exact round2_int_mul 5 500 (by norm_num) m
  · exact round2_int_mul 12 1200 (by norm_num) m
  · exact round2_int_mul (7/2) 350 (by norm_num) m
  · exact round2_int_mul 8 800 (by norm_num) m
  · exact round2_int_mul 6 600 (by norm_num) m

/-! The claims. -/

/-- C1: for every service key in the rate table and every quantity
`q ≥ 1`, a request without priority or streaming yields
`base_price = round(rate * q, 2)`, `addons = 0`, and `total`
equal to the base price. -/
theorem known_service_plain_price (s : String) (r : ℚ) (q : ℤ)
    (hs : PRICES.lookup s = some r) (hq : 1 ≤ q) :
    calculate_price ⟨s, q, false, false⟩ =
      .ok ⟨round2 (r * q), 0, round2 (r * q)⟩ := by
  have hl : PRICES.lookup (lowerStr s) = some r := by
    rw [lowerStr_fixed s r hs]
    exact hs
  rw [calculate_price_known s r hl]
  simp only [rawBase, rawAddons, if_neg, Bool.false_eq_true, if_false,
    effQuantity_of_one_le q hq, round2_zero, add_zero]

theorem known_service_plain_price_witness :
    PRICES.lookup "exploration" = some 5 ∧ (1 : ℤ) ≤ 3 ∧
    calculate_price ⟨"exploration", 3, false, false⟩ =
      .ok ⟨round2 (5 * (3 : ℤ)), 0, round2 (5 * (3 : ℤ))⟩ :=
  ⟨by rfl, by norm_num,
   known_service_plain_price "exploration" 5 3 (by rfl) (by norm_num)⟩

/-- C2: a request whose lower-cased service key is not in the rate
table fails with HTTP 400 "Unknown service" and produces no
breakdown. -/
theorem unknown_service_client_error (req : PriceRequest)
    (h : PRICES.lookup (lowerStr req.service) = none) :
    calculate_price req = .error ⟨400, "Unknown service"⟩ := by
  unfold calculate_price
  rw [h]

theorem unknown_service_client_error_witness :
    PRICES.lookup (lowerStr "not_a_service") = none ∧
    calculate_price ⟨"not_a_service", 1, false, false⟩ =
      .error ⟨400, "Unknown service"⟩ :=
  ⟨by rfl, unknown_service_client_error ⟨"not_a_service", 1, false, false⟩ (by rfl)⟩

/-- C3 fails on the code: for `leveling` with quantity 1, the
priority base price is the rounded `3.5 * 1.25 = 4.375 ↦ 4.38`,
which is not `1.25` times the non-priority base price `3.5`. -/
theorem priority_not_exact_multiplier :
    calculate_price ⟨"leveling", 1, false, false⟩ = .ok ⟨7/2, 0, 7/2⟩ ∧
    calculate_price ⟨"leveling", 1, true, false⟩ = .ok ⟨219/50, 0, 219/50⟩ ∧
    (219/50 : ℚ) ≠ (5/4) * (7/2) := by
  refine ⟨?_, ?_, by norm_num⟩
  · rw [calculate_price_known "leveling" (7/2) (by rfl)]
    norm_num [rawBase, rawAddons, effQuantity, round2, rhe,
      Except.ok.injEq, PriceResponse.mk.injEq]
  · rw [calculate_price_known "leveling" (7/2) (by rfl)]
    norm_num [rawBase, rawAddons, effQuantity, PRIORITY_MULT, round2, rhe,
      Except.ok.injEq, PriceResponse.mk.injEq]

/-- C3 (amended): the base price with priority is `round2` of `1.25`
times the base price without priority (the multiplier acts on the
unrounded value; the returned field is rounded afterwards, which moves
odd leveling quantities by a half-cent). -/
theorem priority_multiplies_unrounded (s : String) (r : ℚ) (q : ℤ) (st : Bool)
    (hs : PRICES.lookup (lowerStr s) = some r) :
    ∃ a b : PriceResponse,
      calculate_price ⟨s, q, true, st⟩ = .ok a ∧
      calculate_price ⟨s, q, false, st⟩ = .ok b ∧
      a.base_price = round2 (PRIORITY_MULT * b.base_price) := by
  refine ⟨_, _, calculate_price_known s r hs q true st,
    calculate_price_known s r hs q false st, ?_⟩
  show round2 (rawBase r q true) = round2 (PRIORITY_MULT * round2 (rawBase r q false))
  have hb : rawBase r q false = r * (effQuantity q : ℤ) := by
    simp [rawBase]
  rw [hb, round2_rate_mul (lowerStr s) r hs (effQuantity q)]
  show round2 (r * (effQuantity q : ℤ) * PRIORITY_MULT) = _
  congr 1
  ring

theorem priority_multiplies_unrounded_witness :
    PRICES.lookup (lowerStr "leveling") = some (7/2) ∧
    (∃ a b : PriceResponse,
      calculate_price ⟨"leveling", 1, true, false⟩ = .ok a ∧
      calculate_price ⟨"leveling", 1, false, false⟩ = .ok b ∧
      a.base_price = round2 (PRIORITY_MULT * b.base_price)) :=
  ⟨by rfl, priority_multiplies_unrounded "leveling" (7/2) 1 false (by rfl)⟩

/-- C4: with service, quantity and priority held fixed, streaming adds
exactly 3 to `addons` and to `total`, and leaves `base_price`
untouched. -/
theorem streaming_adds_flat_fee (s : String) (r : ℚ) (q : ℤ) (pr : Bool)
    (hs : PRICES.lookup (lowerStr s) = some r) :
    ∃ a b : PriceResponse,
      calculate_price ⟨s, q, pr, true⟩ = .ok a ∧
      calculate_price ⟨s, q, pr, false⟩ = .ok b ∧
      a.base_price = b.base_price ∧ a.addons = b.addons + 3 ∧
      a.total = b.total + 3 := by
  refine ⟨_, _, calculate_price_known s r hs q pr true,
    calculate_price_known s r hs q pr false, rfl, ?_, ?_⟩
  · show round2 (rawAddons true) = round2 (rawAddons false) + 3
    have ht : rawAddons true = 3 := by norm_num [rawAddons, STREAMING_FEE]
    have hf : rawAddons false = 0 := rfl
    rw [ht, hf, round2_zero, round2_three, zero_add]
  · show round2 (rawBase r q pr + rawAddons true) =
      round2 (rawBase r q pr + rawAddons false) + 3
    have ht : rawAddons true = 3 := by norm_num [rawAddons, STREAMING_FEE]
    have hf : rawAddons false = 0 := rfl
    rw [ht, hf, add_zero, round2_add_three]

theorem streaming_adds_flat_fee_witness :
    PRICES.lookup (lowerStr "farming") = some 8 ∧
    (∃ a b : PriceResponse,
      calculate_price ⟨"farming", 3, false, true⟩ = .ok a ∧
      calculate_price ⟨"farming", 3, false, false⟩ = .ok b ∧
      a.base_price = b.base_price ∧ a.addons = b.addons + 3 ∧
      a.total = b.total + 3) :=
  ⟨by rfl, streaming_adds_flat_fee "farming" 8 3 false (by rfl)⟩

/-- C5: a non-positive quantity is silently floored to 1, giving the
same breakdown as quantity 1; in particular boss_runs with quantity 0
yields `⟨6, 0, 6⟩`. -/
theorem nonpositive_quantity_floored (s : String) (q : ℤ) (pr st : Bool)
    (h : q ≤ 0) :
    calculate_price ⟨s, q, pr, st⟩ = calculate_price ⟨s, 1, pr, st⟩ ∧
    calculate_price ⟨"boss_runs", 0, false, false⟩ = .ok ⟨6, 0, 6⟩ := by
  constructor
  · have he : effQuantity q = effQuantity 1 := by
      unfold effQuantity
      omega
    unfold calculate_price rawBase
    rw [he]
  · rw [calculate_price_known "boss_runs" 6 (by rfl)]
    simp only [rawBase, rawAddons, Bool.false_eq_true, if_false,
      effQuantity_of_le_one 0 (by norm_num)]
    norm_num [round2, rhe, Except.ok.injEq, PriceResponse.mk.injEq]

theorem nonpositive_quantity_floored_witness :
    (-2 : ℤ) ≤ 0 ∧
    (calculate_price ⟨"exploration", -2, true, true⟩ =
        calculate_price ⟨"exploration", 1, true, true⟩ ∧
      calculate_price ⟨"boss_runs", 0, false, false⟩ = .ok ⟨6, 0, 6⟩) :=
  ⟨by norm_num, nonpositive_quantity_floored "exploration" (-2) true true (by norm_num)⟩

/-- C6: service lookup is case-insensitive — every request gives the
same result as the identical request with the lower-cased service
string, and "Exploration" behaves exactly like "exploration". -/
theorem service_lookup_case_insensitive :
    (∀ req : PriceRequest,
      calculate_price req =
        calculate_price
          ⟨lowerStr req.service, req.quantity, req.priority, req.streaming⟩) ∧
    calculate_price ⟨"Exploration", 2, true, true⟩ =
      calculate_price ⟨"exploration", 2, true, true⟩ := by
  constructor
  · intro req
    unfold calculate_price
    rw [lowerStr_idem]
  · unfold calculate_price
    rw [show lowerStr "Exploration" = lowerStr "exploration" from by decide]

/-- C7: in every successful breakdown the returned `total` equals the
sum of the returned (rounded) `base_price` and `addons` fields. -/
theorem total_eq_base_plus_addons (req : PriceRequest) (resp : PriceResponse)
    (h : calculate_price req = .ok resp) :
    resp.total = resp.base_price + resp.addons := by
  unfold calculate_price at h
  rcases hl : PRICES.lookup (lowerStr req.service) with _ | r
  · rw [hl] at h
    exact Except.noConfusion h
  · rw [hl] at h
    injection h with h2
    rw [← h2]
    show round2 (rawBase r req.quantity req.priority + rawAddons req.streaming) =
      round2 (rawBase r req.quantity req.priority) + round2 (rawAddons req.streaming)
    cases hst : req.streaming
    · have hf : rawAddons false = 0 := rfl
      rw [hf, add_zero, round2_zero, add_zero]
    · have ht : rawAddons true = 3 := by norm_num [rawAddons, STREAMING_FEE]
      rw [ht, round2_add_three, round2_three]

theorem total_eq_base_plus_addons_witness :
    calculate_price ⟨"farming", 3, false, true⟩ =
      .ok ⟨round2 (rawBase 8 3 false), round2 (rawAddons true),
           round2 (rawBase 8 3 false + rawAddons true)⟩ ∧
    (⟨round2 (rawBase 8 3 false), round2 (rawAddons true),
      round2 (rawBase 8 3 false + rawAddons true)⟩ : PriceResponse).total =
      (⟨round2 (rawBase 8 3 false), round2 (rawAddons true),
        round2 (rawBase 8 3 false + rawAddons true)⟩ : PriceResponse).base_price +
      (⟨round2 (rawBase 8 3 false), round2 (rawAddons true),
        round2 (rawBase 8 3 false + rawAddons true)⟩ : PriceResponse).addons :=
  ⟨calculate_price_known "farming" 8 (by rfl) 3 false true,
   total_eq_base_plus_addons ⟨"farming", 3, false, true⟩ _
     (calculate_price_known "farming" 8 (by rfl) 3 false true)⟩

/-- C8: the three concrete scenarios of the spec: leveling×10 gives
`⟨35, 0, 35⟩`, spiral_abyss×2 with priority gives `⟨30, 0, 30⟩`, and
farming×3 with streaming gives `⟨24, 3, 27⟩`. -/
theorem concrete_breakdowns :
    calculate_price ⟨"leveling", 10, false, false⟩ = .ok ⟨35, 0, 35⟩ ∧
    calculate_price ⟨"spiral_abyss", 2, true, false⟩ = .ok ⟨30, 0, 30⟩ ∧
    calculate_price ⟨"farming", 3, false, true⟩ = .ok ⟨24, 3, 27⟩ := by
  refine ⟨?_, ?_, ?_⟩
  · rw [calculate_price_known "leveling" (7/2) (by rfl)]
    norm_num [rawBase, rawAddons, effQuantity, max_def, round2, rhe,
      Except.ok.injEq, PriceResponse.mk.injEq]
  · rw [calculate_price_known "spiral_abyss" 12 (by rfl)]
    norm_num [rawBase, rawAddons, effQuantity, max_def, PRIORITY_MULT,
      round2, rhe, Except.ok.injEq, PriceResponse.mk.injEq]
  · rw [calculate_price_known "farming" 8 (by rfl)]
    norm_num [rawBase, rawAddons, effQuantity, max_def, STREAMING_FEE,
      round2, rhe, Except.ok.injEq, PriceResponse.mk.injEq]

/-- C9: when the store query fails, the testimonial listing returns the
fixed seed sequence truncated to the limit (no error escapes); with
limit 2 it is exactly the first two seed entries in order. -/
theorem testimonials_fallback (e : String) (limit : ℤ) :
    list_testimonials (.error e) limit = pySliceTo seedTestimonials limit ∧
    list_testimonials (.error e) 2 =
      [⟨"Alex R.", some "Genshin Impact", 5,
        "Fast, safe, and super friendly. Cleared Abyss 36★ in one evening!", none⟩,
       ⟨"Mina K.", some "HSR", 5,
        "Efficient farming package. Account felt so much stronger next day.", none⟩] := by
  exact ⟨rfl, rfl⟩

/-- C10: every successful breakdown has a strictly positive base price
and total and non-negative addons. -/
theorem success_breakdown_positive (req : PriceRequest) (resp : PriceResponse)
    (h : calculate_price req = .ok resp) :
    0 < resp.base_price ∧ 0 ≤ resp.addons ∧ 0 < resp.total := by
  unfold calculate_price at h
  rcases hl : PRICES.lookup (lowerStr req.service) with _ | r
  · rw [hl] at h
    exact Except.noConfusion h
  · rw [hl] at h
    injection h with h2
    rw [← h2]
    have hr1 : 1 ≤ r := by
      rcases lookup_cases _ _ hl with ⟨_, hr⟩ | ⟨_, hr⟩ | ⟨_, hr⟩ | ⟨_, hr⟩ | ⟨_, hr⟩ <;>
        subst hr <;> norm_num
    have hm : (1 : ℚ) ≤ ((effQuantity req.quantity : ℤ) : ℚ) := by
      have : (1 : ℤ) ≤ effQuantity req.quantity := le_max_left 1 _
      exact_mod_cast this
    have hbase : 1 ≤ rawBase r req.quantity req.priority := by
      unfold rawBase PRIORITY_MULT
      split
      · nlinarith
      · nlinarith
    have haddons : 0 ≤ rawAddons req.streaming := by
      cases hst : req.streaming
      · norm_num [rawAddons]
      · norm_num [rawAddons, STREAMING_FEE]
    have haddons2 : 0 ≤ round2 (rawAddons req.streaming) := by
      cases hst : req.streaming
      · rw [show rawAddons false = 0 from rfl, round2_zero]
      · rw [show rawAddons true = 3 from by norm_num [rawAddons, STREAMING_FEE],
          round2_three]
        norm_num
    refine ⟨?_, haddons2, ?_⟩
    · have := one_le_round2 _ hbase
      show (0 : ℚ) < round2 (rawBase r req.quantity req.priority)
      linarith
    · have := one_le_round2 (rawBase r req.quantity req.priority +
        rawAddons req.streaming) (by linarith)
      show (0 : ℚ) < round2 (rawBase r req.quantity req.priority +
        rawAddons req.streaming)
      linarith

theorem success_breakdown_positive_witness :
    calculate_price ⟨"exploration", 3, false, false⟩ =
      .ok ⟨round2 (rawBase 5 3 false), round2 (rawAddons false),
           round2 (rawBase 5 3 false + rawAddons false)⟩ ∧
    (0 < (⟨round2 (rawBase 5 3 false), round2 (rawAddons false),
          round2 (rawBase 5 3 false + rawAddons false)⟩ : PriceResponse).base_price ∧
      0 ≤ (⟨round2 (rawBase 5 3 false), round2 (rawAddons false),
          round2 (rawBase 5 3 false + rawAddons false)⟩ : PriceResponse).addons ∧
      0 < (⟨round2 (rawBase 5 3 false), round2 (rawAddons false),
          round2 (rawBase 5 3 false + rawAddons false)⟩ : PriceResponse).total) :=
  ⟨calculate_price_known "exploration" 5 (by rfl) 3 false false,
   success_breakdown_positive ⟨"exploration", 3, false, false⟩ _
     (calculate_price_known "exploration" 5 (by rfl) 3 false false)⟩

end Boosting
